import Mathlib

/-!
Shallow embedding of the request/response and batch-orchestration core of the
affective_ai_videos repository (src/src/pain_stimuli/generator.py and the batch
scripts under src/scripts).  Network effects (fal_client.upload_file,
fal_client.subscribe, requests.get) are modelled as oracle functions passed in
explicitly; the number of outbound calls is tracked in a NetState record so that
"no network call is issued" is a provable statement.  Python exceptions are
modelled with the PyError type and Except; Python dict/JSON shapes with option
fields; the local filesystem with an association list keyed by paths.
-/

namespace AAV

/-- Python exceptions that the embedded code can raise. -/
inductive PyError where
  | keyError (k : String)
  | indexError
  | typeError (m : String)
  | valueError (m : String)
  | fileNotFoundError (m : String)
  | httpError (status : Nat)
  deriving DecidableEq

/-- Rendering of an exception as message text, modelling Python str(error)
(the batch script stores str(error) in its error records). -/
def PyError.msg : PyError → String
  | .keyError k => k
  | .indexError => "list index out of range"
  | .typeError m => m
  | .valueError m => m
  | .fileNotFoundError m => m
  | .httpError st => "HTTP Error " ++ toString st

/-- Process environment: only the FAL_KEY variable is relevant.  none models an
unset variable; some s a set variable (possibly the empty string). -/
structure Env where
  fal_key : Option String
  deriving DecidableEq

/-- Python truthiness of os.environ.get("FAL_KEY"): unset or empty string are
falsy, which is what every entry point checks with `if not os.environ.get(...)`. -/
def falKeyTruthy (env : Env) : Bool :=
  match env.fal_key with
  | none => false
  | some s => !(s == "")

/-- Message of the ValueError raised when FAL_KEY is missing (generator.py). -/
def falKeyMsg : String :=
  "FAL_KEY no configurada. Exporta tu API key: export FAL_KEY=tu-key-aqui"

/-- Counters of outbound network operations, used to verify that a guard fires
before any HTTP request or upload is issued. -/
structure NetState where
  uploadCalls : Nat
  subscribeCalls : Nat
  httpGets : Nat
  deriving DecidableEq

/-- A filesystem path as its list of components (pathlib.Path). -/
abbrev FPath := List String

/-- str() of a path, used in exception messages. -/
def pathToString (p : FPath) : String := String.intercalate "/" p

/-- The local filesystem: a list of existing directories and an association
list from file paths to byte contents (most recent write first). -/
structure FS where
  dirs : List FPath
  files : List (FPath × List Nat)
  deriving DecidableEq

/-- Contents of a file, if present. -/
def FS.readFile (fs : FS) (p : FPath) : Option (List Nat) :=
  (fs.files.find? (fun e => e.1 == p)).map (·.2)

/-- open(path, "wb").write(body): overwrites any previous entry for the path
without confirmation. -/
def FS.writeFile (fs : FS) (p : FPath) (b : List Nat) : FS :=
  { fs with files := (p, b) :: fs.files.filter (fun e => !(e.1 == p)) }

/-- Path.exists(): true for files and directories. -/
def FS.pathExists (fs : FS) (p : FPath) : Bool :=
  (fs.readFile p).isSome || fs.dirs.contains p

/-- path.mkdir(parents=True, exist_ok=True): records the directory and every
ancestor of it as existing; never fails (exist_ok). -/
def FS.mkdirParents (fs : FS) (d : FPath) : FS :=
  { fs with dirs := ((List.range (d.length + 1)).map fun k => d.take k) ++ fs.dirs }

/-- GenerationConfig dataclass (generator.py), with the source's defaults.
Float fields are modelled as rationals. -/
structure GenerationConfig where
  model_id : String := "fal-ai/flux-pro/v1.1-ultra"
  image_size : String := "landscape_16_9"
  num_inference_steps : Nat := 28
  guidance_scale : Rat := (7 : Rat) / 2
  seed : Int := 1001
  safety_tolerance : Nat := 6
  cost_per_image_usd : Rat := (3 : Rat) / 50
  deriving DecidableEq

/-- ImageToImageConfig dataclass (generator.py), with the source's defaults. -/
structure ImageToImageConfig where
  model_id : String := "fal-ai/flux-pro/v1.1-ultra"
  num_inference_steps : Nat := 40
  guidance_scale : Rat := (7 : Rat) / 2
  image_prompt_strength : Rat := (1 : Rat) / 10
  seed : Int := 1001
  safety_tolerance : Nat := 6
  cost_per_image_usd : Rat := (3 : Rat) / 50
  deriving DecidableEq

/-- One element of a provider response's images list: a JSON object with an
optional url key. -/
structure ImageObj where
  url : Option String
  deriving DecidableEq

/-- A terminal provider response, as a record of the keys the client code ever
reads; a field is none exactly when the corresponding key is absent. -/
structure ProviderResponse where
  images : Option (List ImageObj) := none
  image : Option ImageObj := none
  url : Option String := none
  seed : Option Int := none
  prompt : Option String := none
  has_nsfw_concepts : Option (List Bool) := none
  timings : Option (List (String × Rat)) := none
  deriving DecidableEq

/-- The fixed result record built by generate_pain_stimulus and
transform_image_perspective. -/
structure RequestResult where
  image_url : String
  seed : Int
  model_id : String
  prompt : String
  has_nsfw_concepts : Bool
  timings : List (String × Rat)
  raw_response : ProviderResponse
  deriving DecidableEq

/-- The result-dict literal shared by generate_pain_stimulus and
transform_image_perspective:
  image_url := result["images"][0]["url"]   (KeyError / IndexError on mismatch),
  seed := result.get("seed", config.seed),
  has_nsfw_concepts := result.get("has_nsfw_concepts", [False])[0],
  timings := result.get("timings", {}).
Evaluation order follows the Python dict literal. -/
def normalizeResponse (r : ProviderResponse) (cfgSeed : Int) (cfgModelId : String)
    (reqPrompt : String) : Except PyError RequestResult :=
  match r.images with
  | none => .error (.keyError "images")
  | some imgs =>
    match imgs with
    | [] => .error .indexError
    | img :: _ =>
      match img.url with
      | none => .error (.keyError "url")
      | some u =>
        match r.has_nsfw_concepts.getD [false] with
        | [] => .error .indexError
        | b :: _ =>
          .ok { image_url := u
                seed := r.seed.getD cfgSeed
                model_id := cfgModelId
                prompt := r.prompt.getD reqPrompt
                has_nsfw_concepts := b
                timings := r.timings.getD []
                raw_response := r }

/-- The arguments mapping sent by generate_pain_stimulus to fal_client.subscribe. -/
structure SubmitArgs where
  prompt : String
  image_size : String
  num_inference_steps : Nat
  guidance_scale : Rat
  seed : Int
  safety_tolerance : Nat
  num_images : Nat
  output_format : String
  deriving DecidableEq

/-- Construction of the text-to-image arguments dict from the config
(generate_pain_stimulus). -/
def genArguments (prompt : String) (config : GenerationConfig) : SubmitArgs :=
  { prompt := prompt
    image_size := config.image_size
    num_inference_steps := config.num_inference_steps
    guidance_scale := config.guidance_scale
    seed := config.seed
    safety_tolerance := config.safety_tolerance
    num_images := 1
    output_format := "jpeg" }

/-- generate_pain_stimulus (generator.py).  subscribe is the oracle for
fal_client.subscribe: it receives the arguments mapping and yields either the
terminal response or a raised transport/provider error.  Returns the Python
return-or-raise outcome together with the updated network counters. -/
def generate_pain_stimulus (env : Env)
    (subscribe : SubmitArgs → Except PyError ProviderResponse)
    (prompt : String) (config : Option GenerationConfig) (s : NetState) :
    Except PyError RequestResult × NetState :=
  if falKeyTruthy env = false then
    (.error (.valueError falKeyMsg), s)
  else
    let cfg := config.getD {}
    let s1 := { s with subscribeCalls := s.subscribeCalls + 1 }
    match subscribe (genArguments prompt cfg) with
    | .error e => (.error e, s1)
    | .ok r => (normalizeResponse r cfg.seed cfg.model_id prompt, s1)

/-- The arguments mapping sent by transform_image_perspective. -/
structure I2IArgs where
  image_url : String
  prompt : String
  image_prompt_strength : Rat
  num_inference_steps : Nat
  guidance_scale : Rat
  seed : Int
  safety_tolerance : Nat
  num_images : Nat
  output_format : String
  deriving DecidableEq

/-- Construction of the image-to-image arguments dict from the config
(transform_image_perspective). -/
def i2iArguments (image_url prompt : String) (config : ImageToImageConfig) : I2IArgs :=
  { image_url := image_url
    prompt := prompt
    image_prompt_strength := config.image_prompt_strength
    num_inference_steps := config.num_inference_steps
    guidance_scale := config.guidance_scale
    seed := config.seed
    safety_tolerance := config.safety_tolerance
    num_images := 1
    output_format := "jpeg" }

/-- transform_image_perspective (generator.py): credential check, then local
file existence check, then fal_client.upload_file (uploadOracle), then
subscribe, then the same normalization. -/
def transform_image_perspective (env : Env) (fs : FS)
    (uploadOracle : FPath → String)
    (subscribe : I2IArgs → Except PyError ProviderResponse)
    (image_path : FPath) (prompt : String) (config : Option ImageToImageConfig)
    (s : NetState) : Except PyError RequestResult × NetState :=
  if falKeyTruthy env = false then
    (.error (.valueError falKeyMsg), s)
  else if fs.pathExists image_path = false then
    (.error (.fileNotFoundError ("Imagen no encontrada: " ++ pathToString image_path)), s)
  else
    let cfg := config.getD {}
    let s1 := { s with uploadCalls := s.uploadCalls + 1 }
    let image_url := uploadOracle image_path
    let s2 := { s1 with subscribeCalls := s1.subscribeCalls + 1 }
    match subscribe (i2iArguments image_url prompt cfg) with
    | .error e => (.error e, s2)
    | .ok r => (normalizeResponse r cfg.seed cfg.model_id prompt, s2)

/-- upload_image (scripts/generate_video.py): existence check before the
transfer, then fal_client.upload_file returning the remote URL. -/
def upload_image (fs : FS) (uploadOracle : FPath → String) (image_path : FPath)
    (s : NetState) : Except PyError String × NetState :=
  if fs.pathExists image_path = false then
    (.error (.fileNotFoundError ("Imagen no encontrada: " ++ pathToString image_path)), s)
  else
    (.ok (uploadOracle image_path), { s with uploadCalls := s.uploadCalls + 1 })

/-- download_image (generator.py): mkdir(parents=True, exist_ok=True) on the
destination's parent, blocking GET (remote oracle yields terminal status and
body), requests.Response.raise_for_status (which raises exactly for 4xx/5xx
statuses), then write the full body, overwriting, and return the destination. -/
def download_image (remote : String → Nat × List Nat) (url : String)
    (output_path : FPath) (fs : FS) (s : NetState) :
    Except PyError FPath × FS × NetState :=
  let fs1 := fs.mkdirParents output_path.dropLast
  let s1 := { s with httpGets := s.httpGets + 1 }
  let resp := remote url
  if 400 ≤ resp.1 ∧ resp.1 < 600 then
    (.error (.httpError resp.1), fs1, s1)
  else
    (.ok output_path, fs1.writeFile output_path resp.2, s1)

/-- The usage payload read by get_account_usage: buckets of result costs. -/
structure UsageData where
  time_series : List (List Rat)
  deriving DecidableEq

/-- get_account_usage (generator.py): credential check, authenticated GET
(httpOracle), raise_for_status, then summation of costs over the buckets. -/
def get_account_usage (env : Env) (httpOracle : Nat → Nat × UsageData)
    (limit : Nat) (s : NetState) : Except PyError (Rat × UsageData) × NetState :=
  if falKeyTruthy env = false then
    (.error (.valueError falKeyMsg), s)
  else
    let s1 := { s with httpGets := s.httpGets + 1 }
    let resp := httpOracle limit
    if 400 ≤ resp.1 ∧ resp.1 < 600 then
      (.error (.httpError resp.1), s1)
    else
      (.ok ((resp.2.time_series.map (·.foldl (· + ·) 0)).foldl (· + ·) 0, resp.2), s1)

/-! ### Batch orchestration (scripts/generate_ref_img.py) -/

/-- One input row of the batch: Unique_Img_ID, AUTO_PROMPT, Seed. -/
structure BatchItem where
  img_id : String
  prompt : String
  base_seed : Int
  deriving DecidableEq

/-- variant_seed = base_seed + variant (0-based variant index). -/
def variantSeed (base_seed : Int) (i : Nat) : Int := base_seed + i

/-- variant_id = f"{img_id}_v{variant + 1}". -/
def variantId (img_id : String) (i : Nat) : String :=
  img_id ++ "_v" ++ toString (i + 1)

/-- filename = f"{variant_id}.jpg". -/
def variantFilename (img_id : String) (i : Nat) : String :=
  variantId img_id i ++ ".jpg"

/-- The per-variant GenerationConfig built inside the batch loop:
GenerationConfig(seed=variant_seed, num_inference_steps=28, guidance_scale=3.5). -/
def attemptConfig (base_seed : Int) (i : Nat) : GenerationConfig :=
  { seed := variantSeed base_seed i
    num_inference_steps := 28
    guidance_scale := (7 : Rat) / 2 }

/-- The arguments mapping of the batch attempt with 0-based variant index i. -/
def attemptArgs (item : BatchItem) (i : Nat) : SubmitArgs :=
  genArguments item.prompt (attemptConfig item.base_seed i)

/-- An entry of the resultados list of generate_ref_img.main. -/
structure SuccessRecord where
  img_id : String
  base_img_id : String
  variant : Nat
  url : String
  local_path : FPath
  seed : Int
  deriving DecidableEq

/-- An entry of the errores list of generate_ref_img.main:
errores.append with img_id = variant_id and error = str(error). -/
structure ErrorRecord where
  img_id : String
  error : String
  deriving DecidableEq

/-- The body of the inner try/except of generate_ref_img.main for item number k
(0-based position in the filtered prompt list) and variant index i: generate,
then download, building the success record; any raised PyError is caught and
turned into the error record.  The batch subscribe oracle is indexed by the
item position and variant index on top of the submitted arguments, so distinct
attempts may behave arbitrarily differently. -/
def runVariant (env : Env)
    (subscribe : Nat → Nat → SubmitArgs → Except PyError ProviderResponse)
    (remote : String → Nat × List Nat) (output_dir : FPath)
    (k : Nat) (item : BatchItem) (i : Nat) (fs : FS) (s : NetState) :
    Except ErrorRecord SuccessRecord × FS × NetState :=
  let variant_id := variantId item.img_id i
  match generate_pain_stimulus env (subscribe k i) item.prompt
      (some (attemptConfig item.base_seed i)) s with
  | (.error e, s1) => (.error { img_id := variant_id, error := e.msg }, fs, s1)
  | (.ok result, s1) =>
    let output_path := output_dir ++ [variantFilename item.img_id i]
    match download_image remote result.image_url output_path fs s1 with
    | (.error e, fs2, s2) => (.error { img_id := variant_id, error := e.msg }, fs2, s2)
    | (.ok saved, fs2, s2) =>
      (.ok { img_id := variant_id
             base_img_id := item.img_id
             variant := i + 1
             url := result.image_url
             local_path := saved
             seed := result.seed }, fs2, s2)

/-- The inner loop `for variant in range(VARIANTS_PER_PROMPT)` of
generate_ref_img.main, threading the filesystem and network counters and
accumulating resultados and errores in order. -/
def runVariantsFrom (env : Env)
    (subscribe : Nat → Nat → SubmitArgs → Except PyError ProviderResponse)
    (remote : String → Nat × List Nat) (output_dir : FPath)
    (k : Nat) (item : BatchItem) :
    List Nat → FS → NetState →
      List SuccessRecord × List ErrorRecord × FS × NetState
  | [], fs, s => ([], [], fs, s)
  | i :: rest, fs, s =>
    match runVariant env subscribe remote output_dir k item i fs s with
    | (.ok r, fs1, s1) =>
      match runVariantsFrom env subscribe remote output_dir k item rest fs1 s1 with
      | (ss, es, fs2, s2) => (r :: ss, es, fs2, s2)
    | (.error e, fs1, s1) =>
      match runVariantsFrom env subscribe remote output_dir k item rest fs1 s1 with
      | (ss, es, fs2, s2) => (ss, e :: es, fs2, s2)

/-- The outer loop over the (positionally enumerated) batch items. -/
def runItemsFrom (env : Env)
    (subscribe : Nat → Nat → SubmitArgs → Except PyError ProviderResponse)
    (remote : String → Nat × List Nat) (output_dir : FPath) (variantsPerPrompt : Nat) :
    List (Nat × BatchItem) → FS → NetState →
      List SuccessRecord × List ErrorRecord × FS × NetState
  | [], fs, s => ([], [], fs, s)
  | (k, item) :: rest, fs, s =>
    match runVariantsFrom env subscribe remote output_dir k item
        (List.range variantsPerPrompt) fs s with
    | (ss1, es1, fs1, s1) =>
      match runItemsFrom env subscribe remote output_dir variantsPerPrompt rest fs1 s1 with
      | (ss2, es2, fs2, s2) => (ss1 ++ ss2, es1 ++ es2, fs2, s2)

/-- The generation phase of generate_ref_img.main: mkdir of the output
directory, then the nested item/variant loops. -/
def runBatch (env : Env)
    (subscribe : Nat → Nat → SubmitArgs → Except PyError ProviderResponse)
    (remote : String → Nat × List Nat) (output_dir : FPath) (variantsPerPrompt : Nat)
    (items : List BatchItem) (fs : FS) (s : NetState) :
    List SuccessRecord × List ErrorRecord × FS × NetState :=
  runItemsFrom env subscribe remote output_dir variantsPerPrompt items.enum
    (fs.mkdirParents output_dir) s

/-! ### State-independent views of the per-attempt outcome -/

/-- The return-or-raise outcome of generate_pain_stimulus, without the
counter threading. -/
def generateResult (env : Env)
    (subscribe : SubmitArgs → Except PyError ProviderResponse)
    (prompt : String) (config : Option GenerationConfig) :
    Except PyError RequestResult :=
  if falKeyTruthy env = false then .error (.valueError falKeyMsg)
  else
    let cfg := config.getD {}
    match subscribe (genArguments prompt cfg) with
    | .error e => .error e
    | .ok r => normalizeResponse r cfg.seed cfg.model_id prompt

/-- The return-or-raise outcome of download_image, without the filesystem and
counter threading. -/
def downloadResult (remote : String → Nat × List Nat) (url : String)
    (output_path : FPath) : Except PyError FPath :=
  if 400 ≤ (remote url).1 ∧ (remote url).1 < 600 then .error (.httpError (remote url).1)
  else .ok output_path

/-- The record produced by the attempt for item position k, variant index i:
either the success record or the caught error record. -/
def attemptOutcome (env : Env)
    (subscribe : Nat → Nat → SubmitArgs → Except PyError ProviderResponse)
    (remote : String → Nat × List Nat) (output_dir : FPath)
    (k : Nat) (item : BatchItem) (i : Nat) :
    Except ErrorRecord SuccessRecord :=
  let variant_id := variantId item.img_id i
  match generateResult env (subscribe k i) item.prompt
      (some (attemptConfig item.base_seed i)) with
  | .error e => .error { img_id := variant_id, error := e.msg }
  | .ok result =>
    match downloadResult remote result.image_url
        (output_dir ++ [variantFilename item.img_id i]) with
    | .error e => .error { img_id := variant_id, error := e.msg }
    | .ok saved =>
      .ok { img_id := variant_id
            base_img_id := item.img_id
            variant := i + 1
            url := result.image_url
            local_path := saved
            seed := result.seed }

/-- Success component of an attempt outcome. -/
def okPart : Except ErrorRecord SuccessRecord → Option SuccessRecord
  | .ok r => some r
  | .error _ => none

/-- Failure component of an attempt outcome. -/
def errPart : Except ErrorRecord SuccessRecord → Option ErrorRecord
  | .ok _ => none
  | .error e => some e

/-! ### Inpainting script (scripts/generate_neutral_inpainting.py) -/

/-- The arguments mapping sent per variant by generate_neutral_inpainting. -/
structure InpaintArgs where
  image_url : String
  mask_url : String
  prompt : String
  seed : Int
  safety_tolerance : Nat
  guidance_scale : Rat
  steps : Nat
  deriving DecidableEq

/-- base_seed = 4000 in generate_neutral_inpainting.main. -/
def inpaintingBaseSeed : Int := 4000

/-- The inpainting arguments for 0-based variant index i: seed = 4000 + i. -/
def inpaintingArgs (image_url mask_url prompt : String) (i : Nat) : InpaintArgs :=
  { image_url := image_url
    mask_url := mask_url
    prompt := prompt
    seed := inpaintingBaseSeed + i
    safety_tolerance := 6
    guidance_scale := 20
    steps := 50 }

/-- Output name per variant:
base_output_path.with_name(f"{base_output_path.name}_v{variant_num}.jpg"). -/
def inpaintingOutputName (base_name : String) (i : Nat) : String :=
  base_name ++ "_v" ++ toString (i + 1) ++ ".jpg"

/-- The response-shape fallback chain of generate_neutral_inpainting.main:
if "images" in result and len(result["images"]) > 0 then images[0]["url"]
(KeyError if that object has no url), elif "image" in result then
result["image"]["url"], else result.get("url") which may be None. -/
def inpaintingExtractUrl (r : ProviderResponse) : Except PyError (Option String) :=
  match r.images with
  | some (img :: _) =>
    match img.url with
    | none => .error (.keyError "url")
    | some u => .ok (some u)
  | _ =>
    match r.image with
    | some img =>
      match img.url with
      | none => .error (.keyError "url")
      | some u => .ok (some u)
    | none => .ok r.url

/-- Outcome of one inpainting variant iteration. -/
inductive InpaintOutcome where
  | saved (p : FPath)
  | noUrlFound
  | errorCaught (m : String)
  deriving DecidableEq

/-- The body of one iteration of the variants loop of
generate_neutral_inpainting.main: subscribe, extract the URL through the
fallback chain, then `if result_url:` (Python truthiness, so None and the empty
string both fall to the printed "no URL" branch without raising), else download;
any raised error is caught by the surrounding except and only printed. -/
def inpaintingVariant (subscribe : InpaintArgs → Except PyError ProviderResponse)
    (remote : String → Nat × List Nat)
    (image_url mask_url prompt : String) (output_parent : FPath) (base_name : String)
    (i : Nat) (fs : FS) (s : NetState) : InpaintOutcome × FS × NetState :=
  let output_path := output_parent ++ [inpaintingOutputName base_name i]
  let s1 := { s with subscribeCalls := s.subscribeCalls + 1 }
  match subscribe (inpaintingArgs image_url mask_url prompt i) with
  | .error e => (.errorCaught e.msg, fs, s1)
  | .ok r =>
    match inpaintingExtractUrl r with
    | .error e => (.errorCaught e.msg, fs, s1)
    | .ok none => (.noUrlFound, fs, s1)
    | .ok (some u) =>
      if u == "" then (.noUrlFound, fs, s1)
      else
        match download_image remote u output_path fs s1 with
        | (.error e, fs2, s2) => (.errorCaught e.msg, fs2, s2)
        | (.ok saved, fs2, s2) => (.saved saved, fs2, s2)

/-! ### POV transformation script (scripts/generate_pov_img.py) -/

/-- The field names of the ImageToImageConfig dataclass; a Python dataclass
__init__ accepts exactly these as keyword arguments. -/
def imageToImageConfigFields : List String :=
  ["model_id", "num_inference_steps", "guidance_scale", "image_prompt_strength",
   "seed", "safety_tolerance", "cost_per_image_usd"]

/-- Python call-time keyword checking: a keyword argument that is not a field
of the dataclass raises TypeError at the constructor call. -/
def dataclassKwCheck (fields : List String) (kwargs : List String) :
    Except PyError Unit :=
  match kwargs.find? (fun k => !(fields.contains k)) with
  | some k => .error (.typeError ("unexpected keyword argument " ++ k))
  | none => .ok ()

/-- The keyword arguments passed to ImageToImageConfig in
generate_pov_img.main (seed=2001, num_inference_steps=40, guidance_scale=3.5,
strength=0.85). -/
def povConfigKwargs : List String :=
  ["seed", "num_inference_steps", "guidance_scale", "strength"]

/-- How far generate_pov_img.main gets. -/
inductive PovOutcome where
  | exitNoKey
  | assertFailed
  | raisedTypeError (m : String)
  | reachedConfirm
  deriving DecidableEq

/-- EXPECTED_NUM_IMAGES in generate_pov_img.py. -/
def expectedNumImages : Nat := 5

/-- The control flow of generate_pov_img.main up to the point where a network
request could first be issued: credential check, image-count assertion, then
the ImageToImageConfig construction — which happens before the confirmation
prompt and before any transform call. -/
def generate_pov_main (env : Env) (found_images : List FPath) (s : NetState) :
    PovOutcome × NetState :=
  if falKeyTruthy env = false then (.exitNoKey, s)
  else if found_images.length ≠ expectedNumImages then (.assertFailed, s)
  else
    match dataclassKwCheck imageToImageConfigFields povConfigKwargs with
    | .error e => (.raisedTypeError e.msg, s)
    | .ok _ => (.reachedConfirm, s)

/-! ### Helper lemmas -/

/-- The return-or-raise component of generate_pain_stimulus does not depend on
the network counters. -/
theorem generate_pain_stimulus_fst (env : Env)
    (subscribe : SubmitArgs → Except PyError ProviderResponse)
    (prompt : String) (config : Option GenerationConfig) (s : NetState) :
    (generate_pain_stimulus env subscribe prompt config s).1
      = generateResult env subscribe prompt config := by
  unfold generate_pain_stimulus generateResult
  by_cases h : falKeyTruthy env = false
  · simp [h]
  · simp only [h, if_false]
    cases subscribe (genArguments prompt (config.getD {})) <;> rfl

/-- The return-or-raise component of download_image does not depend on the
filesystem or the network counters. -/
theorem download_image_fst (remote : String → Nat × List Nat) (url : String)
    (output_path : FPath) (fs : FS) (s : NetState) :
    (download_image remote url output_path fs s).1
      = downloadResult remote url output_path := by
  unfold download_image downloadResult
  by_cases h : 400 ≤ (remote url).1 ∧ (remote url).1 < 600 <;> simp [h]

/-- okPart on a success. -/
theorem okPart_ok (r : SuccessRecord) : okPart (.ok r) = some r := rfl

/-- okPart on a failure. -/
theorem okPart_error (e : ErrorRecord) : okPart (.error e) = none := rfl

/-- errPart on a success. -/
theorem errPart_ok (r : SuccessRecord) : errPart (.ok r) = none := rfl

/-- errPart on a failure. -/
theorem errPart_error (e : ErrorRecord) : errPart (.error e) = some e := rfl

/-- The record produced by one batch attempt does not depend on the threaded
filesystem or counters: it is exactly attemptOutcome. -/
theorem runVariant_fst (env : Env)
    (subscribe : Nat → Nat → SubmitArgs → Except PyError ProviderResponse)
    (remote : String → Nat × List Nat) (output_dir : FPath)
    (k : Nat) (item : BatchItem) (i : Nat) (fs : FS) (s : NetState) :
    (runVariant env subscribe remote output_dir k item i fs s).1
      = attemptOutcome env subscribe remote output_dir k item i := by
  have hg := generate_pain_stimulus_fst env (subscribe k i) item.prompt
    (some (attemptConfig item.base_seed i)) s
  rcases hgen : generate_pain_stimulus env (subscribe k i) item.prompt
      (some (attemptConfig item.base_seed i)) s with ⟨res, s1⟩
  rw [hgen] at hg
  cases res with
  | error e => simp only [runVariant, attemptOutcome, hgen, ← hg]
  | ok result =>
    have hd := download_image_fst remote result.image_url
      (output_dir ++ [variantFilename item.img_id i]) fs s1
    rcases hdl : download_image remote result.image_url
        (output_dir ++ [variantFilename item.img_id i]) fs s1 with ⟨dres, fs2, s2⟩
    rw [hdl] at hd
    cases dres with
    | error e =>
      simp only [runVariant, attemptOutcome, hgen, ← hg, hdl, ← hd]
    | ok saved =>
      simp only [runVariant, attemptOutcome, hgen, ← hg, hdl, ← hd]

/-- Characterization of the inner variants loop: the resultados and errores it
contributes are exactly the per-attempt outcomes, partitioned, independent of
the threaded filesystem and counters. -/
theorem runVariantsFrom_spec (env : Env)
    (subscribe : Nat → Nat → SubmitArgs → Except PyError ProviderResponse)
    (remote : String → Nat × List Nat) (output_dir : FPath)
    (k : Nat) (item : BatchItem) (is : List Nat) : ∀ (fs : FS) (s : NetState),
    (runVariantsFrom env subscribe remote output_dir k item is fs s).1
      = is.filterMap (fun i => okPart (attemptOutcome env subscribe remote output_dir k item i))
    ∧ (runVariantsFrom env subscribe remote output_dir k item is fs s).2.1
      = is.filterMap (fun i => errPart (attemptOutcome env subscribe remote output_dir k item i)) := by
  induction is with
  | nil => intro fs s; exact ⟨rfl, rfl⟩
  | cons i rest ih =>
    intro fs s
    have ho := runVariant_fst env subscribe remote output_dir k item i fs s
    rcases hrv : runVariant env subscribe remote output_dir k item i fs s with ⟨o, fs1, s1⟩
    rw [hrv] at ho
    rcases hrest : runVariantsFrom env subscribe remote output_dir k item rest fs1 s1
      with ⟨ss, es, fs2, s2⟩
    have ihr := ih fs1 s1
    rw [hrest] at ihr
    cases o with
    | ok r =>
      simp only [runVariantsFrom, hrv, hrest, List.filterMap_cons, ← ho,
        okPart_ok, errPart_ok]
      exact ⟨congrArg (fun l => r :: l) ihr.1, ihr.2⟩
    | error e =>
      simp only [runVariantsFrom, hrv, hrest, List.filterMap_cons, ← ho,
        okPart_error, errPart_error]
      exact ⟨ihr.1, congrArg (fun l => e :: l) ihr.2⟩

/-- Characterization of the outer items loop. -/
theorem runItemsFrom_spec (env : Env)
    (subscribe : Nat → Nat → SubmitArgs → Except PyError ProviderResponse)
    (remote : String → Nat × List Nat) (output_dir : FPath) (n : Nat)
    (l : List (Nat × BatchItem)) : ∀ (fs : FS) (s : NetState),
    (runItemsFrom env subscribe remote output_dir n l fs s).1
      = l.flatMap (fun ki => (List.range n).filterMap
          (fun i => okPart (attemptOutcome env subscribe remote output_dir ki.1 ki.2 i)))
    ∧ (runItemsFrom env subscribe remote output_dir n l fs s).2.1
      = l.flatMap (fun ki => (List.range n).filterMap
          (fun i => errPart (attemptOutcome env subscribe remote output_dir ki.1 ki.2 i))) := by
  induction l with
  | nil => intro fs s; exact ⟨rfl, rfl⟩
  | cons ki rest ih =>
    intro fs s
    rcases ki with ⟨k, item⟩
    have hv := runVariantsFrom_spec env subscribe remote output_dir k item (List.range n) fs s
    rcases hvf : runVariantsFrom env subscribe remote output_dir k item (List.range n) fs s
      with ⟨ss1, es1, fs1, s1⟩
    rw [hvf] at hv
    rcases hit : runItemsFrom env subscribe remote output_dir n rest fs1 s1
      with ⟨ss2, es2, fs2, s2⟩
    have ihr := ih fs1 s1
    rw [hit] at ihr
    simp only [runItemsFrom, hvf, hit, List.flatMap_cons]
    exact ⟨congrArg₂ (· ++ ·) hv.1 ihr.1, congrArg₂ (· ++ ·) hv.2 ihr.2⟩

/-- Characterization of the whole batch run. -/
theorem runBatch_spec (env : Env)
    (subscribe : Nat → Nat → SubmitArgs → Except PyError ProviderResponse)
    (remote : String → Nat × List Nat) (output_dir : FPath) (n : Nat)
    (items : List BatchItem) (fs : FS) (s : NetState) :
    (runBatch env subscribe remote output_dir n items fs s).1
      = items.enum.flatMap (fun ki => (List.range n).filterMap
          (fun i => okPart (attemptOutcome env subscribe remote output_dir ki.1 ki.2 i)))
    ∧ (runBatch env subscribe remote output_dir n items fs s).2.1
      = items.enum.flatMap (fun ki => (List.range n).filterMap
          (fun i => errPart (attemptOutcome env subscribe remote output_dir ki.1 ki.2 i))) :=
  runItemsFrom_spec env subscribe remote output_dir n items.enum
    (fs.mkdirParents output_dir) s

/-- okPart and errPart partition each attempt outcome, so the two filterMaps
over a common index list have lengths summing to the list's length. -/
theorem filterMap_partition_length (f : Nat → Except ErrorRecord SuccessRecord)
    (is : List Nat) :
    (is.filterMap (fun i => okPart (f i))).length
      + (is.filterMap (fun i => errPart (f i))).length = is.length := by
  induction is with
  | nil => rfl
  | cons i rest ih =>
    cases hf : f i with
    | error e =>
      simp only [List.filterMap_cons, hf, okPart_error, errPart_error, List.length_cons]
      omega
    | ok r =>
      simp only [List.filterMap_cons, hf, okPart_ok, errPart_ok, List.length_cons]
      omega

/-- Lengths of the two per-item partitions of a batch sum to items times
variants. -/
theorem flatMap_partition_length (out : Nat × BatchItem → Nat → Except ErrorRecord SuccessRecord)
    (n : Nat) (l : List (Nat × BatchItem)) :
    (l.flatMap fun ki => (List.range n).filterMap fun i => okPart (out ki i)).length
      + (l.flatMap fun ki => (List.range n).filterMap fun i => errPart (out ki i)).length
      = l.length * n := by
  induction l with
  | nil => simp
  | cons ki rest ih =>
    have h := filterMap_partition_length (fun i => out ki i) (List.range n)
    rw [List.length_range] at h
    simp only [List.flatMap_cons, List.length_append, List.length_cons, Nat.succ_mul]
    omega

/-- C2: for every batch run over any input list of items with n requested
variants each, the number of success records plus the number of failure
records equals the total number of attempted variants, and the two lists are
exactly the partition of the per-attempt outcomes (in input order): every
attempted variant lands in exactly one of the two collections, none dropped
and none duplicated. -/
theorem batch_success_failure_partition (env : Env)
    (subscribe : Nat → Nat → SubmitArgs → Except PyError ProviderResponse)
    (remote : String → Nat × List Nat) (output_dir : FPath) (n : Nat)
    (items : List BatchItem) (fs : FS) (s : NetState) :
    ((runBatch env subscribe remote output_dir n items fs s).1).length
      + ((runBatch env subscribe remote output_dir n items fs s).2.1).length
      = items.length * n
    ∧ (runBatch env subscribe remote output_dir n items fs s).1
      = items.enum.flatMap (fun ki => (List.range n).filterMap
          (fun i => okPart (attemptOutcome env subscribe remote output_dir ki.1 ki.2 i)))
    ∧ (runBatch env subscribe remote output_dir n items fs s).2.1
      = items.enum.flatMap (fun ki => (List.range n).filterMap
          (fun i => errPart (attemptOutcome env subscribe remote output_dir ki.1 ki.2 i))) := by
  have hs := runBatch_spec env subscribe remote output_dir n items fs s
  refine ⟨?_, hs.1, hs.2⟩
  have h := flatMap_partition_length
    (fun ki i => attemptOutcome env subscribe remote output_dir ki.1 ki.2 i) n items.enum
  rw [List.enum_length] at h
  rw [hs.1, hs.2]
  exact h

/-- C3: for a batch item with base seed b and n requested variants, the
orchestrator performs exactly n attempts, the submitted seed of the attempt
with 0-based variant index i is b + i (so the seeds are b, b+1, …, b+n-1, in
strictly increasing order), and the output filename carries the item
identifier with the 1-based suffix v(i+1); the inpainting script's per-variant
seed and output name follow the same scheme with its base seed 4000. -/
theorem batch_seed_and_filename_schedule (item : BatchItem) (img_id base_name : String)
    (n i : Nat) (image_url mask_url prompt2 : String) :
    ((List.range n).map fun j => (attemptArgs item j).seed)
      = (List.range n).map (fun j : Nat => item.base_seed + (j : Int))
    ∧ List.Pairwise (· < ·) ((List.range n).map fun j => (attemptArgs item j).seed)
    ∧ variantFilename img_id i = img_id ++ "_v" ++ toString (i + 1) ++ ".jpg"
    ∧ (inpaintingArgs image_url mask_url prompt2 i).seed = inpaintingBaseSeed + (i : Int)
    ∧ inpaintingOutputName base_name i = base_name ++ "_v" ++ toString (i + 1) ++ ".jpg"
    ∧ ∀ (env : Env) (subscribe : Nat → Nat → SubmitArgs → Except PyError ProviderResponse)
        (remote : String → Nat × List Nat) (output_dir : FPath) (k : Nat) (fs : FS) (s : NetState),
        ((runVariantsFrom env subscribe remote output_dir k item (List.range n) fs s).1).length
          + ((runVariantsFrom env subscribe remote output_dir k item (List.range n) fs s).2.1).length
          = n := by
  refine ⟨rfl, ?_, ?_, rfl, ?_, ?_⟩
  · rw [List.pairwise_map]
    refine (List.pairwise_lt_range n).imp ?_
    intro a b h
    show item.base_seed + (a : Int) < item.base_seed + (b : Int)
    omega
  · simp [variantFilename, variantId, String.append_assoc]
  · simp [inpaintingOutputName, String.append_assoc]
  · intro env subscribe remote output_dir k fs s
    have hv := runVariantsFrom_spec env subscribe remote output_dir k item (List.range n) fs s
    have h := filterMap_partition_length
      (fun j => attemptOutcome env subscribe remote output_dir k item j) (List.range n)
    rw [List.length_range] at h
    rw [hv.1, hv.2]
    exact h

/-- C4: an error raised inside one item/variant attempt is caught at the batch
boundary and recorded as an error record carrying that variant's identifier
and the raised error's message text, and every other attempt of the batch
(in particular every later item) still contributes its own outcome — a failure
of one attempt never suppresses any other attempt's record. -/
theorem batch_error_recorded_and_isolation (env : Env)
    (subscribe : Nat → Nat → SubmitArgs → Except PyError ProviderResponse)
    (remote : String → Nat × List Nat) (output_dir : FPath) (n : Nat)
    (items : List BatchItem) (fs : FS) (s : NetState)
    (k : Nat) (item : BatchItem) (i : Nat) (rec : ErrorRecord)
    (hmem : (k, item) ∈ items.enum) (hi : i < n)
    (hfail : attemptOutcome env subscribe remote output_dir k item i = .error rec) :
    (∃ ex : PyError, rec = { img_id := variantId item.img_id i, error := ex.msg })
    ∧ rec ∈ (runBatch env subscribe remote output_dir n items fs s).2.1
    ∧ ∀ (k2 : Nat) (item2 : BatchItem) (i2 : Nat) (r2 : SuccessRecord),
        (k2, item2) ∈ items.enum → i2 < n →
        attemptOutcome env subscribe remote output_dir k2 item2 i2 = .ok r2 →
        r2 ∈ (runBatch env subscribe remote output_dir n items fs s).1 := by
  have hs := runBatch_spec env subscribe remote output_dir n items fs s
  refine ⟨?_, ?_, ?_⟩
  · cases hg : generateResult env (subscribe k i) item.prompt
        (some (attemptConfig item.base_seed i)) with
    | error e =>
      simp only [attemptOutcome, hg] at hfail
      injection hfail with h
      exact ⟨e, h.symm⟩
    | ok result =>
      cases hd : downloadResult remote result.image_url
          (output_dir ++ [variantFilename item.img_id i]) with
      | error e =>
        simp only [attemptOutcome, hg, hd] at hfail
        injection hfail with h
        exact ⟨e, h.symm⟩
      | ok saved =>
        simp only [attemptOutcome, hg, hd] at hfail
        exact Except.noConfusion hfail
  · rw [hs.2]
    refine List.mem_flatMap.mpr ⟨(k, item), hmem, List.mem_filterMap.mpr ⟨i, ?_, ?_⟩⟩
    · exact List.mem_range.mpr hi
    · rw [hfail]; rfl
  · intro k2 item2 i2 r2 hmem2 hi2 hok
    rw [hs.1]
    refine List.mem_flatMap.mpr ⟨(k2, item2), hmem2, List.mem_filterMap.mpr ⟨i2, ?_, ?_⟩⟩
    · exact List.mem_range.mpr hi2
    · rw [hok]; rfl

/-- Witness for C4: a one-item batch whose only attempt fails with a
ValueError "boom"; the error record S01_v1/boom is in the failure list. -/
theorem batch_error_recorded_and_isolation_witness :
    ((0, ({ img_id := "S01", prompt := "p", base_seed := 100 } : BatchItem))
      ∈ ([{ img_id := "S01", prompt := "p", base_seed := 100 }] : List BatchItem).enum)
    ∧ 0 < 1
    ∧ ({ img_id := "S01_v1", error := "boom" } : ErrorRecord)
      ∈ (runBatch ⟨some "key"⟩ (fun _ _ _ => .error (.valueError "boom"))
          (fun _ => (200, [])) ["img"] 1
          [{ img_id := "S01", prompt := "p", base_seed := 100 }] ⟨[], []⟩ ⟨0, 0, 0⟩).2.1 :=
  ⟨by decide, by decide,
    (batch_error_recorded_and_isolation ⟨some "key"⟩ (fun _ _ _ => .error (.valueError "boom"))
      (fun _ => (200, [])) ["img"] 1
      [{ img_id := "S01", prompt := "p", base_seed := 100 }] ⟨[], []⟩ ⟨0, 0, 0⟩
      0 { img_id := "S01", prompt := "p", base_seed := 100 } 0
      { img_id := "S01_v1", error := "boom" } (by decide) (by decide) (by rfl)).2.1⟩

/-- Writing a file then reading it back yields exactly the written bytes,
regardless of what was at that path before. -/
theorem FS.readFile_writeFile (fs : FS) (p : FPath) (b : List Nat) :
    (fs.writeFile p b).readFile p = some b := by
  unfold FS.writeFile FS.readFile
  rw [List.find?_cons_of_pos]
  · rfl
  · exact beq_self_eq_true p

/-- mkdir(parents=True) records every prefix of the directory as existing. -/
theorem FS.take_mem_mkdirParents (fs : FS) (d : FPath) (k : Nat) (hk : k ≤ d.length) :
    d.take k ∈ (fs.mkdirParents d).dirs := by
  unfold FS.mkdirParents
  simp only [List.mem_append, List.mem_map, List.mem_range]
  exact Or.inl ⟨k, by omega, rfl⟩

/-- The directories after a download are those created by the mkdir of the
destination's parent (the write touches only files). -/
theorem download_image_dirs (remote : String → Nat × List Nat) (url : String)
    (output_path : FPath) (fs : FS) (s : NetState) :
    ((download_image remote url output_path fs s).2.1).dirs
      = (fs.mkdirParents output_path.dropLast).dirs := by
  unfold download_image
  by_cases h : 400 ≤ (remote url).1 ∧ (remote url).1 < 600 <;> simp [h, FS.writeFile]

/-- C7 (amended): download creates all missing parent directories of the
destination, raises exactly on a 4xx/5xx terminal status (the behaviour of
requests.Response.raise_for_status — not on every non-2xx status), and
otherwise writes the full response body, overwriting any existing file at the
destination without confirmation, and returns the destination; hence calling
it twice with the same URL and destination and a stable remote succeeds both
times — no error on the pre-existing file — and leaves the same byte content. -/
theorem download_mkdir_write_idempotent (remote : String → Nat × List Nat)
    (url : String) (dest : FPath) (fs : FS) (s s2 : NetState) :
    (∀ k, k ≤ dest.dropLast.length →
        dest.dropLast.take k ∈ ((download_image remote url dest fs s).2.1).dirs)
    ∧ (400 ≤ (remote url).1 ∧ (remote url).1 < 600 →
        (download_image remote url dest fs s).1 = .error (.httpError (remote url).1))
    ∧ (¬ (400 ≤ (remote url).1 ∧ (remote url).1 < 600) →
        (download_image remote url dest fs s).1 = .ok dest
        ∧ ((download_image remote url dest fs s).2.1).readFile dest = some (remote url).2
        ∧ (download_image remote url dest ((download_image remote url dest fs s).2.1) s2).1
            = .ok dest
        ∧ ((download_image remote url dest
              ((download_image remote url dest fs s).2.1) s2).2.1).readFile dest
            = some (remote url).2) := by
  refine ⟨?_, ?_, ?_⟩
  · intro k hk
    rw [download_image_dirs]
    exact FS.take_mem_mkdirParents fs dest.dropLast k hk
  · intro h
    unfold download_image
    simp [h]
  · intro h
    have hok : ∀ (fs0 : FS) (s0 : NetState),
        download_image remote url dest fs0 s0
          = (.ok dest,
             (fs0.mkdirParents dest.dropLast).writeFile dest (remote url).2,
             { s0 with httpGets := s0.httpGets + 1 }) := by
      intro fs0 s0
      unfold download_image
      simp [h]
    refine ⟨by rw [hok fs s], ?_, by rw [hok], ?_⟩
    · rw [hok fs s]
      exact FS.readFile_writeFile _ dest (remote url).2
    · rw [hok ((download_image remote url dest fs s).2.1) s2]
      exact FS.readFile_writeFile _ dest (remote url).2

/-- Witness for C7 (amended): a concrete 200 response is written, read back,
and a second call succeeds with the same content. -/
theorem download_mkdir_write_idempotent_witness :
    (download_image (fun _ => (200, [1, 2])) "u" ["img", "f.jpg"] ⟨[], []⟩ ⟨0, 0, 0⟩).1
        = .ok ["img", "f.jpg"]
    ∧ ((download_image (fun _ => (200, [1, 2])) "u" ["img", "f.jpg"] ⟨[], []⟩ ⟨0, 0, 0⟩).2.1).readFile
        ["img", "f.jpg"] = some [1, 2]
    ∧ (download_image (fun _ => (200, [1, 2])) "u" ["img", "f.jpg"]
        ((download_image (fun _ => (200, [1, 2])) "u" ["img", "f.jpg"] ⟨[], []⟩ ⟨0, 0, 0⟩).2.1)
        ⟨0, 0, 0⟩).1 = .ok ["img", "f.jpg"]
    ∧ ["img"] ∈ ((download_image (fun _ => (200, [1, 2])) "u" ["img", "f.jpg"] ⟨[], []⟩
        ⟨0, 0, 0⟩).2.1).dirs := by
  have h := download_mkdir_write_idempotent (fun _ => (200, [1, 2])) "u" ["img", "f.jpg"]
    ⟨[], []⟩ ⟨0, 0, 0⟩ ⟨0, 0, 0⟩
  have h3 := h.2.2 (by decide)
  exact ⟨h3.1, h3.2.1, h3.2.2.1, h.1 1 (by decide)⟩

/-- Counterexample for C7 as stated: a terminal 304 response is a non-2xx
status, yet download_image does not raise — it returns the destination (and
writes the body), because requests raise_for_status only raises for 4xx/5xx. -/
theorem download_non2xx_304_no_raise :
    ¬ (200 ≤ (304 : Nat) ∧ (304 : Nat) < 300)
    ∧ (download_image (fun _ => (304, [7])) "u" ["img", "f.jpg"] ⟨[], []⟩ ⟨0, 0, 0⟩).1
        = .ok ["img", "f.jpg"] :=
  ⟨by decide, rfl⟩

/-- When the provider response omits seed, has_nsfw_concepts and timings, the
normalization defaults them to the config seed, false, and the empty mapping. -/
theorem normalizeResponse_defaults (r : ProviderResponse) (cs : Int) (cm rp : String)
    (res : RequestResult)
    (hok : normalizeResponse r cs cm rp = .ok res)
    (hseed : r.seed = none) (hnsfw : r.has_nsfw_concepts = none) (htim : r.timings = none) :
    res.seed = cs ∧ res.has_nsfw_concepts = false ∧ res.timings = [] := by
  cases himg : r.images with
  | none =>
    simp only [normalizeResponse, himg] at hok
    exact Except.noConfusion hok
  | some imgs =>
    cases imgs with
    | nil =>
      simp only [normalizeResponse, himg] at hok
      exact Except.noConfusion hok
    | cons img rest =>
      cases hurl : img.url with
      | none =>
        simp only [normalizeResponse, himg, hurl] at hok
        exact Except.noConfusion hok
      | some u =>
        simp only [normalizeResponse, himg, hurl, hseed, hnsfw, htim,
          Option.getD_none] at hok
        injection hok with h
        rw [← h]
        exact ⟨rfl, rfl, rfl⟩

/-- C6: the normalized result record of both single-request entry points
defaults its optional fields when the provider omits them: seed falls back to
the config seed, the sensitive-content flag to false, and timings to the
empty mapping. -/
theorem result_optional_field_defaults (env : Env) (r : ProviderResponse)
    (cfg : GenerationConfig) (icfg : ImageToImageConfig) (fs : FS)
    (uploadOracle : FPath → String) (prompt prompt2 : String) (image_path : FPath)
    (s : NetState) (res res2 : RequestResult)
    (hseed : r.seed = none) (hnsfw : r.has_nsfw_concepts = none) (htim : r.timings = none) :
    ((generate_pain_stimulus env (fun _ => .ok r) prompt (some cfg) s).1 = .ok res →
        res.seed = cfg.seed ∧ res.has_nsfw_concepts = false ∧ res.timings = [])
    ∧ ((transform_image_perspective env fs uploadOracle (fun _ => .ok r) image_path prompt2
          (some icfg) s).1 = .ok res2 →
        res2.seed = icfg.seed ∧ res2.has_nsfw_concepts = false ∧ res2.timings = []) := by
  constructor
  · intro hg
    refine normalizeResponse_defaults r cfg.seed cfg.model_id prompt res ?_ hseed hnsfw htim
    by_cases he : falKeyTruthy env = false
    · simp [generate_pain_stimulus, he] at hg
    · simp [generate_pain_stimulus, he] at hg
      exact hg
  · intro hg
    refine normalizeResponse_defaults r icfg.seed icfg.model_id prompt2 res2 ?_ hseed hnsfw htim
    by_cases he : falKeyTruthy env = false
    · simp [transform_image_perspective, he] at hg
    · by_cases hp : fs.pathExists image_path = false
      · simp [transform_image_perspective, he, hp] at hg
      · simp [transform_image_perspective, he, hp] at hg
        exact hg

/-- Witness for C6: a response with only an image URL; both entry points
return a record with seed 42 and 77 from the configs, flag false, timings []. -/
theorem result_optional_field_defaults_witness :
    (({ images := some [{ url := some "u" }] } : ProviderResponse).seed = none)
    ∧ (({ images := some [{ url := some "u" }] } : ProviderResponse).has_nsfw_concepts = none)
    ∧ (({ images := some [{ url := some "u" }] } : ProviderResponse).timings = none)
    ∧ ((generate_pain_stimulus ⟨some "key"⟩
          (fun _ => .ok { images := some [{ url := some "u" }] }) "p"
          (some { seed := 42 }) ⟨0, 0, 0⟩).1
          = .ok { image_url := "u", seed := 42, model_id := "fal-ai/flux-pro/v1.1-ultra",
                  prompt := "p", has_nsfw_concepts := false, timings := [],
                  raw_response := { images := some [{ url := some "u" }] } } →
        ({ image_url := "u", seed := 42, model_id := "fal-ai/flux-pro/v1.1-ultra",
           prompt := "p", has_nsfw_concepts := false, timings := [],
           raw_response := { images := some [{ url := some "u" }] } } : RequestResult).seed
            = ({ seed := 42 } : GenerationConfig).seed
        ∧ ({ image_url := "u", seed := 42, model_id := "fal-ai/flux-pro/v1.1-ultra",
             prompt := "p", has_nsfw_concepts := false, timings := [],
             raw_response := { images := some [{ url := some "u" }] } } : RequestResult).has_nsfw_concepts
            = false
        ∧ ({ image_url := "u", seed := 42, model_id := "fal-ai/flux-pro/v1.1-ultra",
             prompt := "p", has_nsfw_concepts := false, timings := [],
             raw_response := { images := some [{ url := some "u" }] } } : RequestResult).timings
            = []) :=
  ⟨rfl, rfl, rfl,
    (result_optional_field_defaults ⟨some "key"⟩ { images := some [{ url := some "u" }] }
      { seed := 42 } { seed := 77 } ⟨[], []⟩ (fun _ => "r") "p" "p2" ["x"] ⟨0, 0, 0⟩
      { image_url := "u", seed := 42, model_id := "fal-ai/flux-pro/v1.1-ultra",
        prompt := "p", has_nsfw_concepts := false, timings := [],
        raw_response := { images := some [{ url := some "u" }] } }
      { image_url := "u", seed := 77, model_id := "fal-ai/flux-pro/v1.1-ultra",
        prompt := "p2", has_nsfw_concepts := false, timings := [],
        raw_response := { images := some [{ url := some "u" }] } }
      rfl rfl rfl).1⟩

/-- C5: with the credential environment variable unset, every entry point that
would make a network call fails with the missing-credential ValueError and
leaves the network counters untouched — no HTTP request or upload is issued. -/
theorem missing_credential_no_network (env : Env)
    (subscribe : SubmitArgs → Except PyError ProviderResponse)
    (subscribe2 : I2IArgs → Except PyError ProviderResponse)
    (httpOracle : Nat → Nat × UsageData) (uploadOracle : FPath → String) (fs : FS)
    (prompt prompt2 : String) (config : Option GenerationConfig)
    (config2 : Option ImageToImageConfig) (image_path : FPath) (limit : Nat) (s : NetState)
    (h : env.fal_key = none) :
    generate_pain_stimulus env subscribe prompt config s
        = (.error (.valueError falKeyMsg), s)
    ∧ transform_image_perspective env fs uploadOracle subscribe2 image_path prompt2 config2 s
        = (.error (.valueError falKeyMsg), s)
    ∧ get_account_usage env httpOracle limit s
        = (.error (.valueError falKeyMsg), s) := by
  have ht : falKeyTruthy env = false := by unfold falKeyTruthy; rw [h]
  refine ⟨?_, ?_, ?_⟩ <;>
    simp [generate_pain_stimulus, transform_image_perspective, get_account_usage, ht]

/-- Witness for C5 at the unset environment. -/
theorem missing_credential_no_network_witness :
    (⟨none⟩ : Env).fal_key = none
    ∧ generate_pain_stimulus ⟨none⟩ (fun _ => .ok {}) "p" none ⟨0, 0, 0⟩
        = (.error (.valueError falKeyMsg), ⟨0, 0, 0⟩)
    ∧ get_account_usage ⟨none⟩ (fun _ => (200, ⟨[]⟩)) 10 ⟨0, 0, 0⟩
        = (.error (.valueError falKeyMsg), ⟨0, 0, 0⟩) :=
  ⟨rfl,
    (missing_credential_no_network ⟨none⟩ (fun _ => .ok {}) (fun _ => .ok {})
      (fun _ => (200, ⟨[]⟩)) (fun _ => "u") ⟨[], []⟩ "p" "p2" none none ["x"] 10
      ⟨0, 0, 0⟩ rfl).1,
    (missing_credential_no_network ⟨none⟩ (fun _ => .ok {}) (fun _ => .ok {})
      (fun _ => (200, ⟨[]⟩)) (fun _ => "u") ⟨[], []⟩ "p" "p2" none none ["x"] 10
      ⟨0, 0, 0⟩ rfl).2.2⟩

/-- C8: the upload step and the image-to-image entry point raise the
FileNotFoundError for a missing local path before any upload transfer (the
upload counter is untouched); for an existing path the upload step transfers
the file and returns the remote URL. -/
theorem upload_missing_file_guard (env : Env) (fs : FS) (uploadOracle : FPath → String)
    (subscribe : I2IArgs → Except PyError ProviderResponse) (image_path : FPath)
    (prompt : String) (config : Option ImageToImageConfig) (s : NetState) :
    (fs.pathExists image_path = false →
        upload_image fs uploadOracle image_path s
          = (.error (.fileNotFoundError
              ("Imagen no encontrada: " ++ pathToString image_path)), s))
    ∧ (fs.pathExists image_path = true →
        upload_image fs uploadOracle image_path s
          = (.ok (uploadOracle image_path), { s with uploadCalls := s.uploadCalls + 1 }))
    ∧ (falKeyTruthy env = true → fs.pathExists image_path = false →
        transform_image_perspective env fs uploadOracle subscribe image_path prompt config s
          = (.error (.fileNotFoundError
              ("Imagen no encontrada: " ++ pathToString image_path)), s)) := by
  refine ⟨?_, ?_, ?_⟩
  · intro hp; simp [upload_image, hp]
  · intro hp; simp [upload_image, hp]
  · intro he hp; simp [transform_image_perspective, he, hp]

/-- Witness for C8: a missing and a present file. -/
theorem upload_missing_file_guard_witness :
    upload_image ⟨[], []⟩ (fun _ => "https://fal.storage/x") ["a.jpg"] ⟨0, 0, 0⟩
        = (.error (.fileNotFoundError ("Imagen no encontrada: " ++ pathToString ["a.jpg"])),
           ⟨0, 0, 0⟩)
    ∧ upload_image ⟨[], [(["a.jpg"], [1])]⟩ (fun _ => "https://fal.storage/x") ["a.jpg"]
        ⟨0, 0, 0⟩ = (.ok "https://fal.storage/x", ⟨1, 0, 0⟩)
    ∧ transform_image_perspective ⟨some "key"⟩ ⟨[], []⟩ (fun _ => "https://fal.storage/x")
        (fun _ => .error (.valueError "e")) ["a.jpg"] "p" none ⟨0, 0, 0⟩
        = (.error (.fileNotFoundError ("Imagen no encontrada: " ++ pathToString ["a.jpg"])),
           ⟨0, 0, 0⟩) :=
  ⟨(upload_missing_file_guard ⟨some "key"⟩ ⟨[], []⟩ (fun _ => "https://fal.storage/x")
      (fun _ => .error (.valueError "e")) ["a.jpg"] "p" none ⟨0, 0, 0⟩).1 (by decide),
   (upload_missing_file_guard ⟨some "key"⟩ ⟨[], [(["a.jpg"], [1])]⟩
      (fun _ => "https://fal.storage/x") (fun _ => .error (.valueError "e")) ["a.jpg"] "p"
      none ⟨0, 0, 0⟩).2.1 (by decide),
   (upload_missing_file_guard ⟨some "key"⟩ ⟨[], []⟩ (fun _ => "https://fal.storage/x")
      (fun _ => .error (.valueError "e")) ["a.jpg"] "p" none ⟨0, 0, 0⟩).2.2
      (by decide) (by decide)⟩

/-- C9: once the credential check passes and the expected number of input
images is found, generate_pov_img.main raises a TypeError at the
ImageToImageConfig construction, because the keyword strength is not a field
of the dataclass (the field is image_prompt_strength); the script therefore
stops before the confirmation prompt and never issues a generation request
(the network counters are unchanged). -/
theorem pov_config_strength_type_error (env : Env) (found_images : List FPath)
    (s : NetState)
    (henv : falKeyTruthy env = true) (hn : found_images.length = expectedNumImages) :
    generate_pov_main env found_images s
        = (.raisedTypeError "unexpected keyword argument strength", s)
    ∧ dataclassKwCheck imageToImageConfigFields povConfigKwargs
        = .error (.typeError "unexpected keyword argument strength")
    ∧ imageToImageConfigFields.contains "strength" = false := by
  have hkw : dataclassKwCheck imageToImageConfigFields povConfigKwargs
      = .error (.typeError "unexpected keyword argument strength") := rfl
  refine ⟨?_, hkw, rfl⟩
  simp [generate_pov_main, henv, hn, hkw, PyError.msg]

/-- Witness for C9 with a set key and five found images. -/
theorem pov_config_strength_type_error_witness :
    falKeyTruthy ⟨some "key"⟩ = true
    ∧ ([["a"], ["b"], ["c"], ["d"], ["e"]] : List FPath).length = expectedNumImages
    ∧ generate_pov_main ⟨some "key"⟩ [["a"], ["b"], ["c"], ["d"], ["e"]] ⟨0, 0, 0⟩
        = (.raisedTypeError "unexpected keyword argument strength", ⟨0, 0, 0⟩) :=
  ⟨by decide, by decide,
    (pov_config_strength_type_error ⟨some "key"⟩ [["a"], ["b"], ["c"], ["d"], ["e"]]
      ⟨0, 0, 0⟩ (by decide) (by decide)).1⟩

/-- C10: when the provider response carries has_nsfw_concepts as an empty
list, both single-request entry points raise an IndexError instead of
returning a result record — the false default applies only when the key is
entirely absent, because the code indexes element 0 of whatever list the
provider returned. -/
theorem nsfw_empty_list_index_error (env : Env) (r : ProviderResponse) (u : String)
    (more : List ImageObj) (cfg : GenerationConfig) (icfg : ImageToImageConfig) (fs : FS)
    (uploadOracle : FPath → String) (prompt prompt2 : String) (image_path : FPath)
    (s : NetState)
    (himg : r.images = some ({ url := some u } :: more))
    (hnsfw : r.has_nsfw_concepts = some [])
    (henv : falKeyTruthy env = true) (hex : fs.pathExists image_path = true) :
    normalizeResponse r cfg.seed cfg.model_id prompt = .error .indexError
    ∧ (generate_pain_stimulus env (fun _ => .ok r) prompt (some cfg) s).1
        = .error .indexError
    ∧ (transform_image_perspective env fs uploadOracle (fun _ => .ok r) image_path prompt2
        (some icfg) s).1 = .error .indexError := by
  have hnorm : ∀ (cs : Int) (cm rp : String),
      normalizeResponse r cs cm rp = .error .indexError := by
    intro cs cm rp
    simp [normalizeResponse, himg, hnsfw]
  refine ⟨hnorm _ _ _, ?_, ?_⟩
  · simp [generate_pain_stimulus, henv, hnorm]
  · simp [transform_image_perspective, henv, hex, hnorm]

/-- Witness for C10: a response with a valid image URL but an empty
has_nsfw_concepts list. -/
theorem nsfw_empty_list_index_error_witness :
    (({ images := some [{ url := some "u" }], has_nsfw_concepts := some [] }
        : ProviderResponse).images = some [{ url := some "u" }])
    ∧ (({ images := some [{ url := some "u" }], has_nsfw_concepts := some [] }
        : ProviderResponse).has_nsfw_concepts = some [])
    ∧ (generate_pain_stimulus ⟨some "key"⟩
        (fun _ => .ok { images := some [{ url := some "u" }], has_nsfw_concepts := some [] })
        "p" (some { seed := 42 }) ⟨0, 0, 0⟩).1 = .error .indexError :=
  ⟨rfl, rfl,
    (nsfw_empty_list_index_error ⟨some "key"⟩
      { images := some [{ url := some "u" }], has_nsfw_concepts := some [] } "u" []
      { seed := 42 } { seed := 77 } ⟨[], [(["x"], [1])]⟩ (fun _ => "r") "p" "p2" ["x"]
      ⟨0, 0, 0⟩ rfl rfl (by decide) (by decide)).2.1⟩

/-- C1 (evaluating the code at the failing input): on a terminal provider
response with none of the known result-URL shapes (no images, image, or url
key), no ProviderResponseShapeError is raised anywhere — the inpainting
orchestration's fallback chain yields None, the variant ends in the printed
no-URL branch (neither a raised error nor a success record), and the library
single-request normalization raises a plain KeyError for "images" instead. -/
theorem inpainting_unknown_shape_silent (remote : String → Nat × List Nat)
    (image_url mask_url prompt : String) (output_parent : FPath) (base_name : String)
    (i : Nat) (fs : FS) (s : NetState) :
    (inpaintingVariant (fun _ => .ok {}) remote image_url mask_url prompt output_parent
        base_name i fs s).1 = .noUrlFound
    ∧ inpaintingExtractUrl {} = .ok none
    ∧ ∀ (cs : Int) (cm rp : String),
        normalizeResponse {} cs cm rp = .error (.keyError "images") :=
  ⟨rfl, rfl, fun _ _ _ => rfl⟩

end AAV
